import Mathlib

/-!
Shallow embedding of the tsns membership reconciler.

The repository has two variants of the program:
* `src/main.go` — the pod-fallback variant: `getNodes` falls back to listing
  pods when the endpoint scan yields no addresses; the watch loop writes the
  file unconditionally on every event; a startup failure is logged with
  `log.Printf` and leaves a nil config, clientset or watcher, and the very
  next use of that nil value (`kubernetes.NewForConfig(nil)` at line 51,
  `clients.CoreV1()` at line 56, `watcher.ResultChan()` at line 61) panics,
  terminating the process during startup.
* `src/unnamed/part_000` — the bootstrap/self-append variant: `getNodes` has
  no pod fallback; the loop writes only when the node list is non-empty and
  appends a self entry; startup failures use `log.Fatalf`; an optional
  one-shot bootstrap write is driven by the `INITIAL_NODELIST` environment
  variable; `getCurrentIP` resolves the self IP.

Definitions below are transcribed from those sources.  Kubernetes API calls
are modelled by their results (`ApiResult`); the watch channel is modelled as
a list of trigger events, each carrying the API results visible during that
cycle and whether the file write would succeed.
-/

/-- Configuration from command-line flags shared by both variants.
`nodesFile`, `namespace` and `appSelector` only parameterize which external
objects the API calls touch, which the `ApiResult` model already fixes. -/
structure Config where
  service : String
  apiPort : Nat
  peerPort : Nat
  deriving Repr, DecidableEq

/-- An address inside a Kubernetes endpoint subset (`a.IP` in the source). -/
structure EndpointAddress where
  ip : String
  deriving Repr, DecidableEq

/-- A Kubernetes endpoint subset.  The Go code reads only `s.Addresses`
(the ready addresses); `notReadyAddresses` is carried to show it is ignored. -/
structure EndpointSubset where
  addresses : List EndpointAddress
  notReadyAddresses : List EndpointAddress
  deriving Repr, DecidableEq

/-- A Kubernetes Endpoints object (`e.Name`, `e.Subsets` in the source). -/
structure Endpoints where
  name : String
  subsets : List EndpointSubset
  deriving Repr, DecidableEq

/-- A Kubernetes pod as seen by the fallback path (`pod.Status.PodIP`).
`ready` is carried to show the fallback ignores readiness. -/
structure Pod where
  podIP : String
  ready : Bool
  deriving Repr, DecidableEq

/-- Results of the orchestration-API calls a single resolution can make:
the namespaced endpoints list and (fallback variant only) the pod list. -/
structure ApiResult where
  endpointsList : Except String (List Endpoints)
  podsList : Except String (List Pod)
  deriving Repr

/-- The address formatter: `fmt.Sprintf("%s:%d:%d", ip, peerPort, apiPort)`. -/
def formatNode (ip : String) (peerPort apiPort : Nat) : String :=
  ip ++ ":" ++ toString peerPort ++ ":" ++ toString apiPort

/-- Inner loop of `getNodes`: `for _, a := range s.Addresses { nodes = append(nodes, ...) }`. -/
def collectAddrs (cfg : Config) (s : EndpointSubset) (nodes : List String) : List String :=
  s.addresses.foldl (fun ns a => ns ++ [formatNode a.ip cfg.peerPort cfg.apiPort]) nodes

/-- Middle loop of `getNodes`: `for _, s := range e.Subsets`. -/
def collectSubsets (cfg : Config) (e : Endpoints) (nodes : List String) : List String :=
  e.subsets.foldl (fun ns s => collectAddrs cfg s ns) nodes

/-- Outer loop of `getNodes`: `for _, e := range endpoints.Items`, skipping
items whose name is not the configured service. -/
def collectEndpointNodes (cfg : Config) (items : List Endpoints) : List String :=
  items.foldl (fun ns e => if e.name == cfg.service then collectSubsets cfg e ns else ns) []

/-- Pod fallback loop of `getNodes` in `src/main.go`:
`for _, pod := range pods.Items { nodes = append(nodes, ...) }`. -/
def collectPodNodes (cfg : Config) (pods : List Pod) (nodes : List String) : List String :=
  pods.foldl (fun ns p => ns ++ [formatNode p.podIP cfg.peerPort cfg.apiPort]) nodes

/-- The `getNodes` of `src/unnamed/part_000` (no pod fallback).  Returns the
joined node string together with the log lines it printed. -/
def getNodesBoot (cfg : Config) (api : ApiResult) : String × List String :=
  match api.endpointsList with
  | .error e => ("", ["failed to list endpoints: " ++ e])
  | .ok items => (String.intercalate "," (collectEndpointNodes cfg items), [])

/-- The `getNodes` of `src/main.go`, with the pod-listing fallback taken when
the endpoint scan produced zero addresses. -/
def getNodesFb (cfg : Config) (api : ApiResult) : String × List String :=
  match api.endpointsList with
  | .error e => ("", ["failed to list endpoints: " ++ e])
  | .ok items =>
    let nodes := collectEndpointNodes cfg items
    if nodes.length == 0 then
      match api.podsList with
      | .error e => ("", ["failed to list pods: " ++ e])
      | .ok pods => (String.intercalate "," (collectPodNodes cfg pods nodes), [])
    else (String.intercalate "," nodes, [])

/-- Whether a resolution with these API results enters the pod-listing
fallback branch of `src/main.go` (the `len(nodes) == 0` test). -/
def fallbackInvoked (cfg : Config) (api : ApiResult) : Bool :=
  match api.endpointsList with
  | .error _ => false
  | .ok items => (collectEndpointNodes cfg items).length == 0

/-- A local interface address as `getCurrentIP` sees it: whether the
`addr.(*net.IPNet)` type assertion succeeds, the `IsLoopback` and
`To4() != nil` tests, and the `ip.IP.String()` rendering. -/
structure InterfaceAddr where
  isIPNet : Bool
  isLoopback : Bool
  isIPv4 : Bool
  str : String
  deriving Repr, DecidableEq

/-- The condition under which `getCurrentIP` returns an address. -/
def qualifies (a : InterfaceAddr) : Bool :=
  a.isIPNet && !a.isLoopback && a.isIPv4

/-- The scan of `getCurrentIP` over `net.InterfaceAddrs()`: return the first
non-loopback IPv4 `IPNet` address, or the empty string when none matches. -/
def getCurrentIP (addrs : List InterfaceAddr) : String :=
  match addrs.find? qualifies with
  | some a => a.str
  | none => ""

/-- Line 64 of `src/unnamed/part_000`:
`thisNode := fmt.Sprintf("%s:%d:%d", getCurrentIP(), 8107, 8108)` —
the ports are the literals 8107 and 8108, not the flag values. -/
def selfNode (addrs : List InterfaceAddr) : String :=
  formatNode (getCurrentIP addrs) 8107 8108

/-- One trigger from the watch channel: the API results visible during the
cycle it causes, and whether the `os.WriteFile` of that cycle would succeed. -/
structure WatchEvent where
  api : ApiResult
  writeOk : Bool

/-- What one iteration of a watch loop did: the resulting file contents,
the content of the write it attempted (if any), and its log lines. -/
structure CycleOutcome where
  file : String
  attempt : Option String
  logs : List String

/-- One iteration of the watch loop of `src/unnamed/part_000` (lines 77-88):
resolve, and only when `len(nodes) > 0` join with `thisNode` and write; a
failed write is logged and leaves the file as it was. -/
def cycleStepBoot (cfg : Config) (thisNode : String) (api : ApiResult)
    (file : String) (writeOk : Bool) : CycleOutcome :=
  let r := getNodesBoot cfg api
  if r.fst.length > 0 then
    let flattenedNodes := String.intercalate "," [r.fst, thisNode]
    if writeOk then
      { file := flattenedNodes, attempt := some flattenedNodes,
        logs := r.snd ++ ["found nodes (and added self): " ++ flattenedNodes] }
    else
      { file := file, attempt := some flattenedNodes,
        logs := r.snd ++ ["found nodes (and added self): " ++ flattenedNodes,
                          "failed to write nodes file"] }
  else
    { file := file, attempt := none, logs := r.snd }

/-- One iteration of the watch loop of `src/main.go` (lines 61-66): the write
of the `getNodes` result is unconditional; a failed write is logged. -/
def cycleStepFb (cfg : Config) (api : ApiResult)
    (file : String) (writeOk : Bool) : CycleOutcome :=
  let r := getNodesFb cfg api
  if writeOk then
    { file := r.fst, attempt := some r.fst, logs := r.snd }
  else
    { file := file, attempt := some r.fst,
      logs := r.snd ++ ["failed to write nodes file"] }

/-- The watch loop of `src/unnamed/part_000`, folded over the stream of
trigger events; returns the final file contents. -/
def runLoopBoot (cfg : Config) (thisNode : String) : List WatchEvent → String → String
  | [], file => file
  | c :: cs, file =>
    runLoopBoot cfg thisNode cs (cycleStepBoot cfg thisNode c.api file c.writeOk).file

/-- The contents of the writes the `src/unnamed/part_000` loop attempts, in
order, over a stream of trigger events. -/
def loopWritesBoot (cfg : Config) (thisNode : String) : List WatchEvent → String → List String
  | [], _ => []
  | c :: cs, file =>
    let o := cycleStepBoot cfg thisNode c.api file c.writeOk
    o.attempt.toList ++ loopWritesBoot cfg thisNode cs o.file

/-- The watch loop of `src/main.go`; returns the final file contents. -/
def runLoopFb (cfg : Config) : List WatchEvent → String → String
  | [], file => file
  | c :: cs, file => runLoopFb cfg cs (cycleStepFb cfg c.api file c.writeOk).file

/-- Which of the three fallible startup steps (config construction, client
construction, endpoints-watch subscription) fail in a given run. -/
structure StartupErrors where
  configErr : Bool
  clientErr : Bool
  watchErr : Bool
  deriving Repr, DecidableEq

/-- How the startup of `src/main.go` ends: either the process dies during
startup from a nil dereference after a logged failure, or it reaches the
watch loop. -/
inductive StartupFbOutcome where
  | crashed (logs : List String)
  | watching (logs : List String)
  deriving Repr, DecidableEq

/-- The startup sequence of `src/main.go` (lines 33-61).  A failing step is
reported with `log.Printf` and leaves a nil value, and the next use of that
nil value panics, terminating the process during startup: a config failure
leaves `config == nil` and `kubernetes.NewForConfig(nil)` dereferences it at
line 51; a client failure leaves `clients == nil` and `clients.CoreV1()`
dereferences it at line 56; a watch failure leaves `watcher` nil and
`watcher.ResultChan()` dereferences it at line 61.  A later step is reached
only when every earlier step succeeded, so only the first failure's
diagnostic is ever printed. -/
def startupFb (se : StartupErrors) : StartupFbOutcome :=
  if se.configErr then .crashed ["failed to build config"]
  else if se.clientErr then .crashed ["failed to create kubernetes client"]
  else if se.watchErr then .crashed ["failed to create endpoints watcher"]
  else .watching []

/-- Outcome of a whole run of the `src/unnamed/part_000` process: either a
`log.Fatalf` termination, or a live process with a final file state and the
ordered contents of every write it attempted. -/
inductive RunResult where
  | fatal (msg : String)
  | running (file : String) (writes : List String)
  deriving Repr

/-- The `main` of `src/unnamed/part_000`: fatal startup checks (lines 40-61),
`getCurrentIP` (fatal only if the interface enumeration itself fails, line
115-119), the optional `INITIAL_NODELIST` bootstrap write whose failure is
`log.Fatalf` (lines 63-74), then the watch loop (lines 77-88).
`env` is `some seed` when the variable is present (even empty). -/
def runMainBoot (cfg : Config) (se : StartupErrors) (env : Option String)
    (addrsRes : Except String (List InterfaceAddr)) (bootWriteOk : Bool)
    (cycles : List WatchEvent) (file0 : String) : RunResult :=
  if se.configErr then .fatal "failed to build config"
  else if se.clientErr then .fatal "failed to create kubernetes client"
  else if se.watchErr then .fatal "failed to create endpoints watcher"
  else
    match addrsRes with
    | .error e => .fatal ("error resolving local addresses: " ++ e)
    | .ok addrs =>
      let thisNode := selfNode addrs
      match env with
      | none => .running (runLoopBoot cfg thisNode cycles file0)
                         (loopWritesBoot cfg thisNode cycles file0)
      | some initialNodes =>
        let flattenedNodes := String.intercalate "," [initialNodes, thisNode]
        if bootWriteOk then
          .running (runLoopBoot cfg thisNode cycles flattenedNodes)
                   (flattenedNodes :: loopWritesBoot cfg thisNode cycles flattenedNodes)
        else .fatal "failed to write node list"

/-- Default-flag configuration (`-service=ts -api-port=8108 -peer-port=8107`). -/
def cfg0 : Config := { service := "ts", apiPort := 8108, peerPort := 8107 }

/-- Configuration with non-default ports (`-api-port=9001 -peer-port=9000`). -/
def cfgPorts : Config := { service := "ts", apiPort := 9001, peerPort := 9000 }

/-- A cycle in which both API calls succeed but report nothing. -/
def apiEmpty : ApiResult := { endpointsList := .ok [], podsList := .ok [] }

/-- A cycle in which both API calls fail. -/
def apiErr : ApiResult := { endpointsList := .error "boom", podsList := .error "boom" }

/-- A cycle with one ready endpoint address for the configured service. -/
def apiOne : ApiResult :=
  { endpointsList := .ok [{ name := "ts", subsets := [{ addresses := [{ ip := "10.0.0.3" }],
                                                        notReadyAddresses := [] }] }],
    podsList := .ok [] }

/-- A cycle with no endpoint addresses but one not-ready pod. -/
def apiPods : ApiResult :=
  { endpointsList := .ok [], podsList := .ok [{ podIP := "10.0.0.7", ready := false }] }

/-- A loopback-only interface list: nothing qualifies as a self address. -/
def addrLoop : InterfaceAddr :=
  { isIPNet := true, isLoopback := true, isIPv4 := true, str := "127.0.0.1" }

/-- A qualifying self interface address with IP 10.0.0.9. -/
def addrSelf : InterfaceAddr :=
  { isIPNet := true, isLoopback := false, isIPv4 := true, str := "10.0.0.9" }

/-- The seed list named by claim C4. -/
def seedList : String := "10.0.0.1:8107:8108,10.0.0.2:8107:8108"

theorem foldl_append_singleton {α β : Type} (f : α → β) (l : List α) (init : List β) :
    l.foldl (fun ns x => ns ++ [f x]) init = init ++ l.map f := by
  induction l generalizing init with
  | nil => simp
  | cons a l ih => simp [ih]

theorem collectAddrs_eq (cfg : Config) (s : EndpointSubset) (nodes : List String) :
    collectAddrs cfg s nodes =
      nodes ++ s.addresses.map (fun a => formatNode a.ip cfg.peerPort cfg.apiPort) := by
  unfold collectAddrs
  exact foldl_append_singleton _ _ _

theorem collectSubsets_list_eq (cfg : Config) (ss : List EndpointSubset) (nodes : List String) :
    ss.foldl (fun ns s => collectAddrs cfg s ns) nodes =
      nodes ++ ss.flatMap (fun s =>
        s.addresses.map (fun a => formatNode a.ip cfg.peerPort cfg.apiPort)) := by
  induction ss generalizing nodes with
  | nil => simp
  | cons s ss ih =>
    rw [List.foldl_cons, ih, collectAddrs_eq]
    simp

theorem collectSubsets_eq (cfg : Config) (e : Endpoints) (nodes : List String) :
    collectSubsets cfg e nodes =
      nodes ++ e.subsets.flatMap (fun s =>
        s.addresses.map (fun a => formatNode a.ip cfg.peerPort cfg.apiPort)) := by
  unfold collectSubsets
  exact collectSubsets_list_eq _ _ _

theorem collectEndpoints_list_eq (cfg : Config) (items : List Endpoints) (nodes : List String) :
    items.foldl (fun ns e => if e.name == cfg.service then collectSubsets cfg e ns else ns) nodes =
      nodes ++ (items.filter (fun e => e.name == cfg.service)).flatMap (fun e =>
        e.subsets.flatMap (fun s =>
          s.addresses.map (fun a => formatNode a.ip cfg.peerPort cfg.apiPort))) := by
  induction items generalizing nodes with
  | nil => simp
  | cons e items ih =>
    rw [List.foldl_cons]
    by_cases h : (e.name == cfg.service) = true
    · rw [if_pos h, ih, collectSubsets_eq]
      simp [List.filter_cons, h]
    · rw [if_neg h, ih]
      simp [List.filter_cons, h]

theorem collectEndpointNodes_eq (cfg : Config) (items : List Endpoints) :
    collectEndpointNodes cfg items =
      ((items.filter (fun e => e.name == cfg.service)).flatMap (fun e =>
          e.subsets.flatMap (fun s => s.addresses))).map
        (fun a => formatNode a.ip cfg.peerPort cfg.apiPort) := by
  unfold collectEndpointNodes
  rw [collectEndpoints_list_eq]
  simp [List.map_flatMap]

theorem collectPodNodes_eq (cfg : Config) (pods : List Pod) (nodes : List String) :
    collectPodNodes cfg pods nodes =
      nodes ++ pods.map (fun p => formatNode p.podIP cfg.peerPort cfg.apiPort) := by
  unfold collectPodNodes
  exact foldl_append_singleton _ _ _

theorem intercalate_empty_left (t : String) : String.intercalate "," ["", t] = "," ++ t := by
  simp [String.intercalate, String.intercalate.go]

example : formatNode "10.0.0.1" 8107 8108 = "10.0.0.1:8107:8108" := by rfl

example : getCurrentIP [⟨true, true, true, "127.0.0.1"⟩, ⟨true, false, true, "10.0.0.9"⟩]
    = "10.0.0.9" := by rfl

/-- Claim C1, counterexample.  In the watch loop of `src/main.go` the write is
unconditional: with both API calls succeeding but reporting nothing, the cycle
still performs a write, of the empty string, truncating the previous file
contents `10.0.0.1:8107:8108` — contradicting that the file is rewritten only
when the computed node list is non-empty and is otherwise left unchanged. -/
theorem C1_fb_truncates_on_empty :
    (cycleStepFb cfg0 apiEmpty "10.0.0.1:8107:8108" true).attempt = some "" ∧
    (cycleStepFb cfg0 apiEmpty "10.0.0.1:8107:8108" true).file = "" := by
  exact ⟨rfl, rfl⟩

/-- Claim C1, amended.  In the watch loop of `src/unnamed/part_000` a write is
attempted on a cycle exactly when the resolver result is non-empty, and an
empty resolver result leaves the file contents unchanged for that cycle. -/
theorem C1_boot_write_iff_nonempty (cfg : Config) (thisNode : String) (api : ApiResult)
    (file : String) (writeOk : Bool) :
    ((cycleStepBoot cfg thisNode api file writeOk).attempt.isSome = true ↔
      0 < (getNodesBoot cfg api).fst.length) ∧
    ((getNodesBoot cfg api).fst.length = 0 →
      (cycleStepBoot cfg thisNode api file writeOk).file = file) := by
  unfold cycleStepBoot
  by_cases h : 0 < (getNodesBoot cfg api).fst.length
  · cases writeOk <;> (simp [h]; try omega)
  · simp [h]

/-- Claim C1, witness for the amended theorem at a concrete empty cycle. -/
theorem C1_boot_write_iff_nonempty_witness :
    (getNodesBoot cfg0 apiEmpty).fst.length = 0 ∧
    (cycleStepBoot cfg0 ":8107:8108" apiEmpty "10.0.0.1:8107:8108" true).file
      = "10.0.0.1:8107:8108" :=
  ⟨rfl, (C1_boot_write_iff_nonempty cfg0 ":8107:8108" apiEmpty "10.0.0.1:8107:8108" true).2 rfl⟩

/-- Claim C4.  With `INITIAL_NODELIST` set to the seed of the claim and the
self IP resolving to 10.0.0.9, the run of `src/unnamed/part_000` performs
exactly one bootstrap write — the head of the write trace, before every
change-event-driven write — whose content is the seed joined with the self
entry by a comma, and the loop starts from that file content. -/
theorem C4_bootstrap_once_before_loop (cfg : Config) (cycles : List WatchEvent) (file0 : String) :
    runMainBoot cfg ⟨false, false, false⟩ (some seedList) (.ok [addrSelf]) true cycles file0 =
      .running
        (runLoopBoot cfg "10.0.0.9:8107:8108" cycles
          "10.0.0.1:8107:8108,10.0.0.2:8107:8108,10.0.0.9:8107:8108")
        ("10.0.0.1:8107:8108,10.0.0.2:8107:8108,10.0.0.9:8107:8108" ::
          loopWritesBoot cfg "10.0.0.9:8107:8108" cycles
            "10.0.0.1:8107:8108,10.0.0.2:8107:8108,10.0.0.9:8107:8108") := by
  rfl

/-- Claim C2, counterexample.  With a loopback-only interface list nothing
qualifies, `getCurrentIP` returns the empty string, and the process of
`src/unnamed/part_000` does not terminate: it proceeds into the watch loop
with the degenerate self entry `:8107:8108` silently accepted downstream. -/
theorem C2_empty_self_not_fatal :
    getCurrentIP [addrLoop] = "" ∧
    selfNode [addrLoop] = ":8107:8108" ∧
    runMainBoot cfg0 ⟨false, false, false⟩ none (.ok [addrLoop]) true [] "prev" =
      .running "prev" [] := by
  exact ⟨rfl, rfl, rfl⟩

/-- Claim C2, amended.  `getCurrentIP` indeed never returns a loopback or
non-IPv4 address: any non-empty result is the rendering of some listed
address that passed the IPNet, non-loopback and IPv4 tests.  But when no
address qualifies it returns the empty string and the program does not treat
this as fatal: startup continues into the watch loop with self entry
`:8107:8108`. -/
theorem C2_self_resolution (addrs : List InterfaceAddr) :
    (getCurrentIP addrs = "" ∨
      ∃ a, a ∈ addrs ∧ a.isIPNet = true ∧ a.isLoopback = false ∧ a.isIPv4 = true ∧
        getCurrentIP addrs = a.str) ∧
    ((∀ a, a ∈ addrs → qualifies a = false) →
      selfNode addrs = ":8107:8108" ∧
      ∀ cfg bw cycles file0,
        runMainBoot cfg ⟨false, false, false⟩ none (.ok addrs) bw cycles file0 =
          .running (runLoopBoot cfg ":8107:8108" cycles file0)
                   (loopWritesBoot cfg ":8107:8108" cycles file0)) := by
  constructor
  · cases hf : addrs.find? qualifies with
    | none => exact Or.inl (by simp [getCurrentIP, hf])
    | some a =>
      refine Or.inr ⟨a, List.mem_of_find?_eq_some hf, ?_, ?_, ?_, by simp [getCurrentIP, hf]⟩
      all_goals
        have hq := List.find?_some hf
        simp [qualifies] at hq
        simp [hq]
  · intro hnone
    have hf : addrs.find? qualifies = none := by
      rw [List.find?_eq_none]
      intro a ha
      simp [hnone a ha]
    have hip : getCurrentIP addrs = "" := by simp [getCurrentIP, hf]
    have hsn : selfNode addrs = ":8107:8108" := by
      rw [selfNode, hip]
      rfl
    refine ⟨hsn, fun cfg bw cycles file0 => ?_⟩
    simp [runMainBoot, hsn]

/-- Claim C2, witness: the amended theorem applied to the loopback-only list. -/
theorem C2_self_resolution_witness :
    selfNode [addrLoop] = ":8107:8108" ∧
    runMainBoot cfg0 ⟨false, false, false⟩ none (.ok [addrLoop]) true [] "f" =
      .running (runLoopBoot cfg0 ":8107:8108" [] "f") (loopWritesBoot cfg0 ":8107:8108" [] "f") := by
  have h := (C2_self_resolution [addrLoop]).2 (by decide)
  exact ⟨h.1, h.2 cfg0 true [] "f"⟩

/-- Claim C3.  Each of the three startup failures terminates the process
before the watch loop is entered in both variants.  In `src/unnamed/part_000`
the failure is `log.Fatalf`: the run ends fatally with a diagnostic message.
In `src/main.go` the failure is logged with `log.Printf` and the next use of
the nil value it leaves dies of a nil dereference, so startup ends crashed
with the diagnostic printed, and the watch loop is reached only when all
three startup steps succeeded. -/
theorem C3_startup_failures :
    (∀ (cfg : Config) (se : StartupErrors) env addrsRes bw cycles f0,
      (se.configErr || se.clientErr || se.watchErr) = true →
      ∃ msg, runMainBoot cfg se env addrsRes bw cycles f0 = .fatal msg) ∧
    (∀ se : StartupErrors, (se.configErr || se.clientErr || se.watchErr) = true →
      ∃ msg, startupFb se = .crashed [msg]) ∧
    (∀ (se : StartupErrors) (logs : List String), startupFb se = .watching logs →
      se.configErr = false ∧ se.clientErr = false ∧ se.watchErr = false) := by
  refine ⟨?_, ?_, ?_⟩
  · intro cfg se env addrsRes bw cycles f0 h
    rcases se with ⟨cE, clE, wE⟩
    cases cE
    · cases clE
      · cases wE
        · simp at h
        · exact ⟨"failed to create endpoints watcher", rfl⟩
      · exact ⟨"failed to create kubernetes client", rfl⟩
    · exact ⟨"failed to build config", rfl⟩
  · intro se h
    rcases se with ⟨cE, clE, wE⟩
    cases cE
    · cases clE
      · cases wE
        · simp at h
        · exact ⟨"failed to create endpoints watcher", rfl⟩
      · exact ⟨"failed to create kubernetes client", rfl⟩
    · exact ⟨"failed to build config", rfl⟩
  · intro se logs h
    rcases se with ⟨cE, clE, wE⟩
    cases cE <;> cases clE <;> cases wE <;> simp_all [startupFb]

/-- Claim C3, witness: a failed watch subscription ends the run fatally in
the bootstrap variant, and a failed config construction crashes the startup
of `src/main.go` after printing its diagnostic. -/
theorem C3_startup_failures_witness :
    (∃ msg, runMainBoot cfg0 ⟨false, false, true⟩ none (.ok [addrSelf]) true [] "" =
      RunResult.fatal msg) ∧
    (∃ msg, startupFb ⟨true, false, false⟩ = .crashed [msg]) :=
  ⟨C3_startup_failures.1 cfg0 ⟨false, false, true⟩ none (.ok [addrSelf]) true [] "" rfl,
   C3_startup_failures.2.1 ⟨true, false, false⟩ rfl⟩

/-- Claim C5.  Evaluation of the code at the failing input: with flags
`-peer-port=9000 -api-port=9001`, endpoint entries use the configured ports
(`10.0.0.3:9000:9001`) but the self entry appended to the written list is
`10.0.0.9:8107:8108` — line 64 of `src/unnamed/part_000` formats `thisNode`
with the literals 8107 and 8108 instead of the flag values, so the written
file mixes port conventions. -/
theorem C5_self_entry_ignores_ports :
    selfNode [addrSelf] = "10.0.0.9:8107:8108" ∧
    formatNode "10.0.0.9" cfgPorts.peerPort cfgPorts.apiPort = "10.0.0.9:9000:9001" ∧
    selfNode [addrSelf] ≠ formatNode "10.0.0.9" cfgPorts.peerPort cfgPorts.apiPort ∧
    (cycleStepBoot cfgPorts (selfNode [addrSelf]) apiOne "prev" true).file =
      "10.0.0.3:9000:9001,10.0.0.9:8107:8108" := by
  refine ⟨rfl, rfl, ?_, rfl⟩
  decide

/-- Claim C6.  In `getNodes` of `src/main.go`: when the endpoints list call
succeeds, the pod-listing fallback branch is entered exactly when the
endpoint scan collected zero addresses; when at least one endpoint address
was collected the fallback is not entered and the result joins the endpoint
entries; when the fallback is entered and the pod list succeeds, the result
joins one entry per listed pod from its current IP (its readiness does not
enter the computation); a failed endpoints list never reaches the fallback. -/
theorem C6_fallback_iff_no_endpoints (cfg : Config) (api : ApiResult) :
    (∀ items, api.endpointsList = .ok items →
      ((fallbackInvoked cfg api = true ↔ collectEndpointNodes cfg items = []) ∧
       (collectEndpointNodes cfg items ≠ [] →
         fallbackInvoked cfg api = false ∧
         (getNodesFb cfg api).fst = String.intercalate "," (collectEndpointNodes cfg items)) ∧
       (∀ pods, collectEndpointNodes cfg items = [] → api.podsList = .ok pods →
         (getNodesFb cfg api).fst = String.intercalate ","
           (pods.map (fun p => formatNode p.podIP cfg.peerPort cfg.apiPort))))) ∧
    (∀ e, api.endpointsList = .error e → fallbackInvoked cfg api = false) := by
  constructor
  · intro items hok
    refine ⟨?_, ?_, ?_⟩
    · simp [fallbackInvoked, hok, List.length_eq_zero]
    · intro hne
      constructor
      · simp [fallbackInvoked, hok, List.length_eq_zero, hne]
      · have hlen : (collectEndpointNodes cfg items).length ≠ 0 := by
          simpa [List.length_eq_zero] using hne
        simp [getNodesFb, hok, hlen]
    · intro pods hemp hpods
      simp [getNodesFb, hok, hemp, hpods, collectPodNodes_eq]
  · intro e herr
    simp [fallbackInvoked, herr]

/-- Claim C6, witness: with no endpoint addresses the fallback is invoked and
uses the not-ready pod's IP; the result is the formatted pod entry. -/
theorem C6_fallback_iff_no_endpoints_witness :
    fallbackInvoked cfg0 apiPods = true ∧
    (getNodesFb cfg0 apiPods).fst = "10.0.0.7:8107:8108" := by
  have h := (C6_fallback_iff_no_endpoints cfg0 apiPods).1 [] rfl
  refine ⟨h.1.mpr rfl, ?_⟩
  have h2 := h.2.2 [{ podIP := "10.0.0.7", ready := false }] rfl rfl
  simpa using h2

/-- Claim C7.  An error from the endpoints list makes both variants of
`getNodes` log the failure and return the empty string, and the watch loop of
`src/unnamed/part_000` leaves the file unchanged for that cycle and carries
on with the remaining events; an error from the fallback pod list likewise
makes `getNodes` of `src/main.go` log and return the empty string. -/
theorem C7_api_error_returns_empty (cfg : Config) (api : ApiResult) :
    (∀ e, api.endpointsList = .error e →
      getNodesBoot cfg api = ("", ["failed to list endpoints: " ++ e]) ∧
      getNodesFb cfg api = ("", ["failed to list endpoints: " ++ e]) ∧
      (∀ thisNode file w cs,
        runLoopBoot cfg thisNode ({ api := api, writeOk := w } :: cs) file =
          runLoopBoot cfg thisNode cs file)) ∧
    (∀ items e, api.endpointsList = .ok items → collectEndpointNodes cfg items = [] →
      api.podsList = .error e →
      getNodesFb cfg api = ("", ["failed to list pods: " ++ e])) := by
  constructor
  · intro e herr
    refine ⟨by simp [getNodesBoot, herr], by simp [getNodesFb, herr], ?_⟩
    intro thisNode file w cs
    have hstep : (cycleStepBoot cfg thisNode api file w).file = file := by
      simp [cycleStepBoot, getNodesBoot, herr]
    rw [runLoopBoot, hstep]
  · intro items e hok hemp herr
    simp [getNodesFb, hok, hemp, herr]

/-- Claim C7, witness: both resolvers at a failing endpoints call, and the
loop of the bootstrap variant stepping over the failed cycle unchanged. -/
theorem C7_api_error_returns_empty_witness :
    getNodesBoot cfg0 apiErr = ("", ["failed to list endpoints: boom"]) ∧
    runLoopBoot cfg0 ":8107:8108" [{ api := apiErr, writeOk := true }] "prev" =
      runLoopBoot cfg0 ":8107:8108" [] "prev" := by
  have h := (C7_api_error_returns_empty cfg0 apiErr).1 "boom" rfl
  exact ⟨h.1, h.2.2 ":8107:8108" "prev" true []⟩

/-- Claim C8, counterexample.  A failed bootstrap write in
`src/unnamed/part_000` is `log.Fatalf`: the process terminates, contradicting
that every failure to write the output file is never fatal. -/
theorem C8_bootstrap_write_failure_fatal :
    runMainBoot cfg0 ⟨false, false, false⟩ (some seedList) (.ok [addrSelf]) false [] "prev" =
      .fatal "failed to write node list" := by
  rfl

/-- Claim C8, amended.  Steady-state write failures are logged and non-fatal
in both variants — the cycle leaves the file unchanged and the loop goes on —
but a failure of the one-shot bootstrap write terminates the process. -/
theorem C8_write_failure_handling :
    (∀ (cfg : Config) (thisNode : String) (api : ApiResult) (file : String),
      (cycleStepBoot cfg thisNode api file false).file = file ∧
      ((cycleStepBoot cfg thisNode api file false).attempt.isSome = true →
        "failed to write nodes file" ∈ (cycleStepBoot cfg thisNode api file false).logs)) ∧
    (∀ (cfg : Config) (api : ApiResult) (file : String),
      (cycleStepFb cfg api file false).file = file ∧
      "failed to write nodes file" ∈ (cycleStepFb cfg api file false).logs) ∧
    (∀ (cfg : Config) (seed : String) (addrs : List InterfaceAddr) cycles f0,
      runMainBoot cfg ⟨false, false, false⟩ (some seed) (.ok addrs) false cycles f0 =
        .fatal "failed to write node list") := by
  refine ⟨?_, ?_, ?_⟩
  · intro cfg thisNode api file
    by_cases h : 0 < (getNodesBoot cfg api).fst.length
    · constructor
      · simp [cycleStepBoot, h]
      · intro _
        simp [cycleStepBoot, h]
    · constructor
      · simp [cycleStepBoot, h]
      · intro habs
        simp [cycleStepBoot, h] at habs
  · intro cfg api file
    exact ⟨rfl, by simp [cycleStepFb]⟩
  · intro cfg seed addrs cycles f0
    rfl

/-- Claim C8, witness: a failed steady-state write on a non-empty cycle is
logged and leaves the file unchanged. -/
theorem C8_write_failure_handling_witness :
    (cycleStepBoot cfg0 ":8107:8108" apiOne "prev" false).file = "prev" ∧
    "failed to write nodes file" ∈ (cycleStepBoot cfg0 ":8107:8108" apiOne "prev" false).logs := by
  have h := C8_write_failure_handling.1 cfg0 ":8107:8108" apiOne "prev"
  exact ⟨h.1, h.2 rfl⟩

/-- Claim C9.  The endpoint scan produces exactly one entry per ready address
of the service named by the configuration, each entry being the formatted
`ip:peerPort:apiPort` string, in source iteration order (endpoints item
order, then subset order, then address order within each subset), and the
resolver joins them with single commas. -/
theorem C9_one_entry_per_address (cfg : Config) (items : List Endpoints) (api : ApiResult) :
    collectEndpointNodes cfg items =
      ((items.filter (fun e => e.name == cfg.service)).flatMap (fun e =>
          e.subsets.flatMap (fun s => s.addresses))).map
        (fun a => formatNode a.ip cfg.peerPort cfg.apiPort) ∧
    (collectEndpointNodes cfg items).length =
      ((items.filter (fun e => e.name == cfg.service)).flatMap (fun e =>
          e.subsets.flatMap (fun s => s.addresses))).length ∧
    (api.endpointsList = .ok items →
      (getNodesBoot cfg api).fst = String.intercalate "," (collectEndpointNodes cfg items)) := by
  refine ⟨collectEndpointNodes_eq cfg items, ?_, ?_⟩
  · rw [collectEndpointNodes_eq]
    exact List.length_map _ _
  · intro hok
    simp [getNodesBoot, hok]

/-- Claim C9, witness: two addresses across two subsets of the configured
service, with a non-matching service and a not-ready address ignored, give
two formatted entries joined by one comma in source order. -/
theorem C9_one_entry_per_address_witness :
    collectEndpointNodes cfg0
        [{ name := "other", subsets := [{ addresses := [{ ip := "10.9.9.9" }],
                                          notReadyAddresses := [] }] },
         { name := "ts", subsets := [{ addresses := [{ ip := "10.0.0.3" }],
                                       notReadyAddresses := [{ ip := "10.8.8.8" }] },
                                     { addresses := [{ ip := "10.0.0.4" }],
                                       notReadyAddresses := [] }] }]
      = ["10.0.0.3:8107:8108", "10.0.0.4:8107:8108"] ∧
    (getNodesBoot cfg0
        { endpointsList := .ok
            [{ name := "other", subsets := [{ addresses := [{ ip := "10.9.9.9" }],
                                              notReadyAddresses := [] }] },
             { name := "ts", subsets := [{ addresses := [{ ip := "10.0.0.3" }],
                                           notReadyAddresses := [{ ip := "10.8.8.8" }] },
                                         { addresses := [{ ip := "10.0.0.4" }],
                                           notReadyAddresses := [] }] }],
          podsList := .ok [] }).fst
      = "10.0.0.3:8107:8108,10.0.0.4:8107:8108" := by
  constructor
  · rfl
  · rw [(C9_one_entry_per_address cfg0
      [{ name := "other", subsets := [{ addresses := [{ ip := "10.9.9.9" }],
                                        notReadyAddresses := [] }] },
       { name := "ts", subsets := [{ addresses := [{ ip := "10.0.0.3" }],
                                     notReadyAddresses := [{ ip := "10.8.8.8" }] },
                                   { addresses := [{ ip := "10.0.0.4" }],
                                     notReadyAddresses := [] }] }]
      { endpointsList := .ok
          [{ name := "other", subsets := [{ addresses := [{ ip := "10.9.9.9" }],
                                            notReadyAddresses := [] }] },
           { name := "ts", subsets := [{ addresses := [{ ip := "10.0.0.3" }],
                                         notReadyAddresses := [{ ip := "10.8.8.8" }] },
                                       { addresses := [{ ip := "10.0.0.4" }],
                                         notReadyAddresses := [] }] }],
        podsList := .ok [] }).2.2 rfl]
    rfl

/-- Claim C10.  When `INITIAL_NODELIST` is present with the empty value,
`os.LookupEnv` still reports it as set, so bootstrap mode is entered and the
bootstrap write is `strings.Join(["", thisNode], ",")`: a string that begins
with a comma — an empty leading list element before the self entry — rather
than the self entry alone. -/
theorem C10_empty_seed_still_bootstraps (cfg : Config) (addrs : List InterfaceAddr)
    (cycles : List WatchEvent) (f0 : String) :
    runMainBoot cfg ⟨false, false, false⟩ (some "") (.ok addrs) true cycles f0 =
      .running (runLoopBoot cfg (selfNode addrs) cycles ("," ++ selfNode addrs))
               (("," ++ selfNode addrs) ::
                 loopWritesBoot cfg (selfNode addrs) cycles ("," ++ selfNode addrs)) ∧
    ("," ++ selfNode addrs).data = ',' :: (selfNode addrs).data := by
  constructor
  · simp [runMainBoot, intercalate_empty_left]
  · rfl
